import Mathlib

/-!
# Floorplan editor state engine — verification development

Shallow embedding of the floorplan editor's state engine:
the document model (`src/types/floorplan.ts`), the zustand store with its
past/present/future undo history (`src/store/floorplan-store.ts`), the
grid-snapping helper (`src/hooks/useFabric.ts`), the wall-drawing gesture
release handler and the agent tool-call executor
(`src/components/toolbar/Toolbar.tsx`).

Numbers are embedded as `ℚ` (JavaScript numbers used by the engine here are
exact decimal/integer values; no floating-point-specific behaviour is relied
on by the properties below).  Identifier generation (`generateId`, which
mixes the clock and `Math.random`) is impure, so every creating command takes
the generated id as an explicit argument.
-/

namespace FloorplanEditor

/-- Model of `Point` from `src/types/floorplan.ts`: `{x, y}`. -/
structure Point where
  x : ℚ
  y : ℚ
deriving DecidableEq, Repr

/-- Model of `Wall` from `src/types/floorplan.ts`.  The source field `end` is a Lean
keyword, written `«end»` here. -/
structure Wall where
  id : String
  start : Point
  «end» : Point
  thickness : ℚ
deriving DecidableEq, Repr

/-- Model of `Door` from `src/types/floorplan.ts`.  `swingDirection` is the string
union `'left' | 'right'` in the source. -/
structure Door where
  id : String
  wallId : String
  position : ℚ
  width : ℚ
  swingDirection : String
  swingInward : Bool
deriving DecidableEq, Repr

/-- Model of `Window` from `src/types/floorplan.ts`. -/
structure Window where
  id : String
  wallId : String
  position : ℚ
  width : ℚ
  height : ℚ
deriving DecidableEq, Repr

/-- Model of `Room` from `src/types/floorplan.ts`.  `type` is the `RoomType` string
union in the source. -/
structure Room where
  id : String
  name : String
  type : String
  wallIds : List String
  color : Option String
deriving DecidableEq, Repr

/-- Model of `FurnitureItem` from `src/types/floorplan.ts`. -/
structure FurnitureItem where
  id : String
  type : String
  position : Point
  rotation : ℚ
  width : ℚ
  height : ℚ
  label : Option String
deriving DecidableEq, Repr

/-- Model of `Floorplan` from `src/types/floorplan.ts`. -/
structure Floorplan where
  id : String
  name : String
  units : String
  scale : ℚ
  gridSize : ℚ
  walls : List Wall
  doors : List Door
  windows : List Window
  rooms : List Room
  furniture : List FurnitureItem
  backgroundImage : Option String
deriving DecidableEq, Repr

-- The `DEFAULTS` constant object from `src/types/floorplan.ts`.
namespace DEFAULTS

def wallThickness : ℚ := 6

def doorWidth : ℚ := 32

def windowWidth : ℚ := 36

def windowHeight : ℚ := 48

def gridSize : ℚ := 12

def snapIncrement : ℚ := 6

def scale : ℚ := 10

end DEFAULTS

/-- Model of `createEmptyFloorplan` from `src/store/floorplan-store.ts`; the impure
`generateId()` result is passed in. -/
def createEmptyFloorplan (id : String) : Floorplan :=
  { id := id
    name := "Untitled Floorplan"
    units := "imperial"
    scale := DEFAULTS.scale
    gridSize := DEFAULTS.gridSize
    walls := []
    doors := []
    windows := []
    rooms := []
    furniture := []
    backgroundImage := none }

/-- The `HistoryState` triple from `src/store/floorplan-store.ts`. -/
structure HistoryState where
  past : List Floorplan
  present : Floorplan
  future : List Floorplan
deriving DecidableEq, Repr

/-- Model of `MAX_HISTORY` from `src/store/floorplan-store.ts`. -/
def MAX_HISTORY : Nat := 50

/-- JavaScript `array.slice(-n)`: the last `n` elements of the array (the
whole array when it is shorter than `n`). -/
def sliceLast (l : List α) (n : Nat) : List α :=
  l.drop (l.length - n)

/-- Value-level reading of the source helper `pushToHistory` from
`src/store/floorplan-store.ts`:
`newPast = [...past, present].slice(-MAX_HISTORY)`, `future` cleared,
`present` kept.  Applied to a plain value this is what the text computes;
however at runtime the store actions call it on the live immer draft and
then mutate `state.present` in place, so the pushed array element is the
same draft that the mutation rewrites — the store actions below therefore do
NOT factor through this helper followed by a pure present replacement (see
`recordInPlace`).  It is kept for list-level facts such as eviction at the
cap. -/
def pushToHistory (s : HistoryState) : HistoryState :=
  { past := sliceLast (s.past ++ [s.present]) MAX_HISTORY
    present := s.present
    future := [] }

/-- Runtime (post-finalization) semantics of a store action that runs
`Object.assign(state, pushToHistory(state))` and then mutates
`state.present` IN PLACE via `f` (every store mutator except
`setName`/`setFloorplan`/`resetFloorplan`).  `pushToHistory` pushes the live
immer draft of `state.present` onto `past`; the caller's in-place mutation
modifies that same draft, and immer finalization replaces every occurrence
of the modified draft with its single finalized value.  So both the appended
history entry and the new `present` finalize to the POST-mutation document
`f s.present`; no pre-mutation snapshot is retained. -/
def recordInPlace (f : Floorplan → Floorplan) (s : HistoryState) : HistoryState :=
  { past := sliceLast (s.past ++ [f s.present]) MAX_HISTORY
    present := f s.present
    future := [] }

/-- Runtime semantics of a store action that runs `pushToHistory` and then
REPLACES `state.present` with a fresh object (`setFloorplan`,
`resetFloorplan`).  The pushed draft of the old present is never modified,
so it finalizes to the pre-mutation document: these two actions do retain a
true snapshot. -/
def recordReplace (fp : Floorplan) (s : HistoryState) : HistoryState :=
  { past := sliceLast (s.past ++ [s.present]) MAX_HISTORY
    present := fp
    future := [] }

/-- Model of `undo` from `src/store/floorplan-store.ts`: no-op on empty `past`,
otherwise pop the last `past` entry into `present`, prepending the old
`present` onto `future`. -/
def undo (s : HistoryState) : HistoryState :=
  match s.past.getLast? with
  | none => s
  | some previous =>
    { past := s.past.dropLast
      present := previous
      future := s.present :: s.future }

/-- Model of `redo` from `src/store/floorplan-store.ts`: no-op on empty `future`,
otherwise shift the first `future` entry into `present`, appending the old
`present` onto `past` (note: without re-applying the `MAX_HISTORY` cap). -/
def redo (s : HistoryState) : HistoryState :=
  match s.future with
  | [] => s
  | next :: rest =>
    { past := s.past ++ [s.present]
      present := next
      future := rest }

/-- Model of `canUndo` from `src/store/floorplan-store.ts`. -/
def canUndo (s : HistoryState) : Bool :=
  decide (0 < s.past.length)

/-- Model of `canRedo` from `src/store/floorplan-store.ts`. -/
def canRedo (s : HistoryState) : Bool :=
  decide (0 < s.future.length)

/-- Model of `Object.assign(wall, updates)` on the first array element matching a
predicate, as done by the `update*` commands
(`find` + in-place patch in `src/store/floorplan-store.ts`). -/
def patchFirst (p : α → Bool) (f : α → α) : List α → List α
  | [] => []
  | x :: xs => if p x then f x :: xs else x :: patchFirst p f xs

/-- Model of `Partial<Omit<Wall, 'id'>>` patch record. -/
structure WallUpdates where
  start : Option Point
  «end» : Option Point
  thickness : Option ℚ
deriving DecidableEq, Repr

/-- Model of `Object.assign(wall, updates)` (the id is excluded by `Omit`). -/
def applyWallUpdates (w : Wall) (u : WallUpdates) : Wall :=
  { w with
    start := u.start.getD w.start
    «end» := u.«end».getD w.«end»
    thickness := u.thickness.getD w.thickness }

/-- Model of `Partial<Omit<Door, 'id'>>` patch record. -/
structure DoorUpdates where
  wallId : Option String
  position : Option ℚ
  width : Option ℚ
  swingDirection : Option String
  swingInward : Option Bool
deriving DecidableEq, Repr

/-- Model of `Object.assign(door, updates)`. -/
def applyDoorUpdates (d : Door) (u : DoorUpdates) : Door :=
  { d with
    wallId := u.wallId.getD d.wallId
    position := u.position.getD d.position
    width := u.width.getD d.width
    swingDirection := u.swingDirection.getD d.swingDirection
    swingInward := u.swingInward.getD d.swingInward }

/-- Model of `Partial<Omit<Window, 'id'>>` patch record. -/
structure WindowUpdates where
  wallId : Option String
  position : Option ℚ
  width : Option ℚ
  height : Option ℚ
deriving DecidableEq, Repr

/-- Model of `Object.assign(window, updates)`. -/
def applyWindowUpdates (w : Window) (u : WindowUpdates) : Window :=
  { w with
    wallId := u.wallId.getD w.wallId
    position := u.position.getD w.position
    width := u.width.getD w.width
    height := u.height.getD w.height }

/-- Model of `Partial<Omit<Room, 'id'>>` patch record. -/
structure RoomUpdates where
  name : Option String
  type : Option String
  wallIds : Option (List String)
  color : Option (Option String)
deriving DecidableEq, Repr

/-- Model of `Object.assign(room, updates)`. -/
def applyRoomUpdates (r : Room) (u : RoomUpdates) : Room :=
  { r with
    name := u.name.getD r.name
    type := u.type.getD r.type
    wallIds := u.wallIds.getD r.wallIds
    color := u.color.getD r.color }

/-- Model of `Partial<Omit<FurnitureItem, 'id'>>` patch record. -/
structure FurnitureUpdates where
  type : Option String
  position : Option Point
  rotation : Option ℚ
  width : Option ℚ
  height : Option ℚ
  label : Option (Option String)
deriving DecidableEq, Repr

/-- Model of `Object.assign(item, updates)`. -/
def applyFurnitureUpdates (f : FurnitureItem) (u : FurnitureUpdates) : FurnitureItem :=
  { f with
    type := u.type.getD f.type
    position := u.position.getD f.position
    rotation := u.rotation.getD f.rotation
    width := u.width.getD f.width
    height := u.height.getD f.height
    label := u.label.getD f.label }

/-- Model of `setFloorplan` from `src/store/floorplan-store.ts`: push, then
REPLACE `state.present` with the given floorplan (the pushed draft stays
unmodified, so the pre-mutation present is genuinely retained). -/
def setFloorplan (fp : Floorplan) (s : HistoryState) : HistoryState :=
  recordReplace fp s

/-- Model of `resetFloorplan` from `src/store/floorplan-store.ts`: push, then
REPLACE `state.present` with a fresh empty floorplan; `newId` is the fresh
`generateId()` value used by `createEmptyFloorplan`. -/
def resetFloorplan (newId : String) (s : HistoryState) : HistoryState :=
  recordReplace (createEmptyFloorplan newId) s

/-- Model of `setName` from `src/store/floorplan-store.ts`.  Note: unlike every other
mutating action in the store, it does NOT call `pushToHistory`.  (Across
producer calls immer copies on write, so the name change does not leak into
previously pushed history entries.) -/
def setName (name : String) (s : HistoryState) : HistoryState :=
  { s with present := { s.present with name := name } }

/-- Model of `setUnits` from `src/store/floorplan-store.ts`: push, then mutate
`state.present.units` in place. -/
def setUnits (units : String) (s : HistoryState) : HistoryState :=
  recordInPlace (fun p => { p with units := units }) s

/-- Model of `setBackgroundImage` from `src/store/floorplan-store.ts`: push, then
mutate `state.present.backgroundImage` in place. -/
def setBackgroundImage (imageData : Option String) (s : HistoryState) : HistoryState :=
  recordInPlace (fun p => { p with backgroundImage := imageData }) s

/-- Model of `addWall` from `src/store/floorplan-store.ts`: push, then
`state.present.walls.push(...)` in place (the returned fresh id is the
explicit `id` argument). -/
def addWall (id : String) (start «end» : Point) (thickness : ℚ) (s : HistoryState) :
    HistoryState :=
  recordInPlace (fun p => { p with
    walls := p.walls ++ [{ id := id, start := start, «end» := «end»,
                           thickness := thickness }] }) s

/-- Model of `updateWall` from `src/store/floorplan-store.ts`: push, then patch the
first wall whose id matches in place; silently no patch when absent. -/
def updateWall (id : String) (u : WallUpdates) (s : HistoryState) : HistoryState :=
  recordInPlace (fun p => { p with
    walls := patchFirst (fun w => w.id == id) (fun w => applyWallUpdates w u)
      p.walls }) s

/-- Model of `removeWall` from `src/store/floorplan-store.ts`: push, then filter the
wall out and cascade-filter doors and windows whose `wallId` matches, all in
place within the same producer call. -/
def removeWall (id : String) (s : HistoryState) : HistoryState :=
  recordInPlace (fun p => { p with
    walls := p.walls.filter (fun w => w.id != id)
    doors := p.doors.filter (fun d => d.wallId != id)
    windows := p.windows.filter (fun w => w.wallId != id) }) s

/-- Model of `addDoor` from `src/store/floorplan-store.ts`: push, then append in
place; the position is stored as passed; `swingDirection` is initialised to
`'left'`, `swingInward` to `true`. -/
def addDoor (id wallId : String) (position width : ℚ) (s : HistoryState) : HistoryState :=
  recordInPlace (fun p => { p with
    doors := p.doors ++ [{ id := id, wallId := wallId, position := position,
                           width := width, swingDirection := "left",
                           swingInward := true }] }) s

/-- Model of `updateDoor` from `src/store/floorplan-store.ts`. -/
def updateDoor (id : String) (u : DoorUpdates) (s : HistoryState) : HistoryState :=
  recordInPlace (fun p => { p with
    doors := patchFirst (fun d => d.id == id) (fun d => applyDoorUpdates d u)
      p.doors }) s

/-- Model of `removeDoor` from `src/store/floorplan-store.ts`. -/
def removeDoor (id : String) (s : HistoryState) : HistoryState :=
  recordInPlace (fun p => { p with
    doors := p.doors.filter (fun d => d.id != id) }) s

/-- Model of `addWindow` from `src/store/floorplan-store.ts`: push, then append in
place; the position is stored as passed. -/
def addWindow (id wallId : String) (position width height : ℚ) (s : HistoryState) :
    HistoryState :=
  recordInPlace (fun p => { p with
    windows := p.windows ++ [{ id := id, wallId := wallId,
                               position := position, width := width,
                               height := height }] }) s

/-- Model of `updateWindow` from `src/store/floorplan-store.ts`. -/
def updateWindow (id : String) (u : WindowUpdates) (s : HistoryState) : HistoryState :=
  recordInPlace (fun p => { p with
    windows := patchFirst (fun w => w.id == id) (fun w => applyWindowUpdates w u)
      p.windows }) s

/-- Model of `removeWindow` from `src/store/floorplan-store.ts`. -/
def removeWindow (id : String) (s : HistoryState) : HistoryState :=
  recordInPlace (fun p => { p with
    windows := p.windows.filter (fun w => w.id != id) }) s

/-- Model of `addRoom` from `src/store/floorplan-store.ts` (no `color` is set). -/
def addRoom (id name type : String) (wallIds : List String) (s : HistoryState) :
    HistoryState :=
  recordInPlace (fun p => { p with
    rooms := p.rooms ++ [{ id := id, name := name, type := type,
                           wallIds := wallIds, color := none }] }) s

/-- Model of `updateRoom` from `src/store/floorplan-store.ts`. -/
def updateRoom (id : String) (u : RoomUpdates) (s : HistoryState) : HistoryState :=
  recordInPlace (fun p => { p with
    rooms := patchFirst (fun r => r.id == id) (fun r => applyRoomUpdates r u)
      p.rooms }) s

/-- Model of `removeRoom` from `src/store/floorplan-store.ts`. -/
def removeRoom (id : String) (s : HistoryState) : HistoryState :=
  recordInPlace (fun p => { p with
    rooms := p.rooms.filter (fun r => r.id != id) }) s

/-- Model of `addFurniture` from `src/store/floorplan-store.ts`: rotation initialised
to `0`, no label. -/
def addFurniture (id type : String) (position : Point) (width height : ℚ)
    (s : HistoryState) : HistoryState :=
  recordInPlace (fun p => { p with
    furniture := p.furniture ++ [{ id := id, type := type,
                                   position := position, rotation := 0,
                                   width := width, height := height,
                                   label := none }] }) s

/-- Model of `updateFurniture` from `src/store/floorplan-store.ts`. -/
def updateFurniture (id : String) (u : FurnitureUpdates) (s : HistoryState) : HistoryState :=
  recordInPlace (fun p => { p with
    furniture := patchFirst (fun f => f.id == id) (fun f => applyFurnitureUpdates f u)
      p.furniture }) s

/-- Model of `removeFurniture` from `src/store/floorplan-store.ts`. -/
def removeFurniture (id : String) (s : HistoryState) : HistoryState :=
  recordInPlace (fun p => { p with
    furniture := p.furniture.filter (fun f => f.id != id) }) s

/-- Model of `removeSelected` from `src/store/floorplan-store.ts`: one push, then
filter all five collections in place against the id list. -/
def removeSelected (ids : List String) (s : HistoryState) : HistoryState :=
  recordInPlace (fun p => { p with
    walls := p.walls.filter (fun w => !ids.contains w.id)
    doors := p.doors.filter (fun d => !ids.contains d.id)
    windows := p.windows.filter (fun w => !ids.contains w.id)
    furniture := p.furniture.filter (fun f => !ids.contains f.id)
    rooms := p.rooms.filter (fun r => !ids.contains r.id) }) s

/-- The mutating command surface of the store (every store action that
writes the document; `undo`/`redo`/`canUndo`/`canRedo` are the history and
query actions and are kept separate).  Creating commands carry the fresh
`generateId()` value as data. -/
inductive Command where
  | setFloorplan (fp : Floorplan)
  | resetFloorplan (newId : String)
  | setName (name : String)
  | setUnits (units : String)
  | setBackgroundImage (imageData : Option String)
  | addWall (id : String) (start «end» : Point) (thickness : ℚ)
  | updateWall (id : String) (u : WallUpdates)
  | removeWall (id : String)
  | addDoor (id wallId : String) (position width : ℚ)
  | updateDoor (id : String) (u : DoorUpdates)
  | removeDoor (id : String)
  | addWindow (id wallId : String) (position width height : ℚ)
  | updateWindow (id : String) (u : WindowUpdates)
  | removeWindow (id : String)
  | addRoom (id name type : String) (wallIds : List String)
  | updateRoom (id : String) (u : RoomUpdates)
  | removeRoom (id : String)
  | addFurniture (id type : String) (position : Point) (width height : ℚ)
  | updateFurniture (id : String) (u : FurnitureUpdates)
  | removeFurniture (id : String)
  | removeSelected (ids : List String)
deriving DecidableEq, Repr

/-- Dispatch a command to the corresponding store action. -/
def Command.apply : Command → HistoryState → HistoryState
  | .setFloorplan fp => FloorplanEditor.setFloorplan fp
  | .resetFloorplan newId => FloorplanEditor.resetFloorplan newId
  | .setName name => FloorplanEditor.setName name
  | .setUnits units => FloorplanEditor.setUnits units
  | .setBackgroundImage img => FloorplanEditor.setBackgroundImage img
  | .addWall id start «end» thickness => FloorplanEditor.addWall id start «end» thickness
  | .updateWall id u => FloorplanEditor.updateWall id u
  | .removeWall id => FloorplanEditor.removeWall id
  | .addDoor id wallId position width => FloorplanEditor.addDoor id wallId position width
  | .updateDoor id u => FloorplanEditor.updateDoor id u
  | .removeDoor id => FloorplanEditor.removeDoor id
  | .addWindow id wallId position width height =>
      FloorplanEditor.addWindow id wallId position width height
  | .updateWindow id u => FloorplanEditor.updateWindow id u
  | .removeWindow id => FloorplanEditor.removeWindow id
  | .addRoom id name type wallIds => FloorplanEditor.addRoom id name type wallIds
  | .updateRoom id u => FloorplanEditor.updateRoom id u
  | .removeRoom id => FloorplanEditor.removeRoom id
  | .addFurniture id type position width height =>
      FloorplanEditor.addFurniture id type position width height
  | .updateFurniture id u => FloorplanEditor.updateFurniture id u
  | .removeFurniture id => FloorplanEditor.removeFurniture id
  | .removeSelected ids => FloorplanEditor.removeSelected ids

/-- Whether the command is the `setName` action (the one store action that
mutates the document without touching history). -/
def Command.isSetName : Command → Bool
  | .setName _ => true
  | _ => false

/-- Whether the command replaces `state.present` with a fresh object instead
of mutating it in place (`setFloorplan` and `resetFloorplan`): only these two
leave the pushed history entry equal to the pre-mutation present. -/
def Command.isReplacing : Command → Bool
  | .setFloorplan _ => true
  | .resetFloorplan _ => true
  | _ => false

/-- Apply a sequence of commands left to right. -/
def applyCommands (cs : List Command) (s : HistoryState) : HistoryState :=
  cs.foldl (fun s c => c.apply s) s

/-- The store's initial history: empty `past` and `future` around a present
document (the store uses `createEmptyFloorplan()`). -/
def initialState (fp : Floorplan) : HistoryState :=
  { past := [], present := fp, future := [] }

/-- One transition of the live store: a mutating command, an `undo`, or a
`redo`. -/
inductive Step : HistoryState → HistoryState → Prop where
  | cmd (c : Command) (s : HistoryState) : Step s (c.apply s)
  | undo (s : HistoryState) : Step s (undo s)
  | redo (s : HistoryState) : Step s (redo s)

/-- States reachable from `init` by any interleaving of mutating commands,
undo and redo. -/
inductive Reachable (init : HistoryState) : HistoryState → Prop where
  | refl : Reachable init init
  | step {s t : HistoryState} : Reachable init s → Step s t → Reachable init t

/-- Model of `snapToGridPoint` from `src/hooks/useFabric.ts`:
disabled snapping returns the point unchanged; otherwise each axis is rounded
to the nearest multiple of `snapSize = DEFAULTS.snapIncrement * DEFAULTS.scale`
(JavaScript `Math.round(x / snapSize) * snapSize`; `Math.round` rounds halves
toward `+∞`, exactly Mathlib's `round`). -/
def snapToGridPoint (snapEnabled : Bool) (x y : ℚ) : Point :=
  if !snapEnabled then { x := x, y := y }
  else
    let snapSize := DEFAULTS.snapIncrement * DEFAULTS.scale
    { x := (round (x / snapSize) : ℤ) * snapSize
      y := (round (y / snapSize) : ℤ) * snapSize }

/-- The decision core of `handleMouseUp` in
`src/components/toolbar/Toolbar.tsx` (lines 796-836), given the snapped
start point captured at mouse-down and the snapped release point, both in
canvas pixel space.  The source guard `Math.sqrt(dx*dx + dy*dy) > 10` is
rendered as `dx*dx + dy*dy > 10*10`, equivalent over nonnegative reals, to
stay in `ℚ`.  Returns the two `addWall` arguments (pixel coordinates divided
by `DEFAULTS.scale`) or `none` when the gesture is discarded. -/
def handleMouseUpWall (start snapped : Point) : Option (Point × Point) :=
  let dx := snapped.x - start.x
  let dy := snapped.y - start.y
  if dx * dx + dy * dy > 10 * 10 then
    some ({ x := start.x / DEFAULTS.scale, y := start.y / DEFAULTS.scale },
          { x := snapped.x / DEFAULTS.scale, y := snapped.y / DEFAULTS.scale })
  else
    none

/-- The `clearAll` branch of `executeToolCall` in
`src/components/toolbar/Toolbar.tsx` (lines 299-306):
`if (confirm) { resetFloorplan(); return true; } return false;`.
The argument is declared `confirm: boolean` and may be absent, embedded as
`Option Bool` (`none` = absent/undefined, falsy).  Returns the per-invocation
success flag and the resulting state; no exception path exists. -/
def executeClearAll (confirm : Option Bool) (newId : String) (s : HistoryState) :
    Bool × HistoryState :=
  match confirm with
  | some true => (true, resetFloorplan newId s)
  | _ => (false, s)

/-- The `moveFurniture` branch of `executeToolCall` in
`src/components/toolbar/Toolbar.tsx` (lines 264-272):
`updateFurniture(furnitureId, { position: { x, y } }); return true;`. -/
def executeMoveFurniture (furnitureId : String) (x y : ℚ) (s : HistoryState) :
    Bool × HistoryState :=
  (true, updateFurniture furnitureId
    { type := none, position := some { x := x, y := y }, rotation := none,
      width := none, height := none, label := none } s)

/-- The `rotateFurniture` branch of `executeToolCall` in
`src/components/toolbar/Toolbar.tsx` (lines 274-281):
`updateFurniture(furnitureId, { rotation }); return true;`. -/
def executeRotateFurniture (furnitureId : String) (rotation : ℚ) (s : HistoryState) :
    Bool × HistoryState :=
  (true, updateFurniture furnitureId
    { type := none, position := none, rotation := some rotation,
      width := none, height := none, label := none } s)

/-- The `removeWall` branch of `executeToolCall` in
`src/components/toolbar/Toolbar.tsx` (lines 214-218):
`removeWall(wallId); return true;`. -/
def executeRemoveWall (wallId : String) (s : HistoryState) : Bool × HistoryState :=
  (true, removeWall wallId s)

/-! ## Helper lemmas about the history engine -/

theorem undo_of_past_nil {s : HistoryState} (h : s.past = []) : undo s = s := by
  simp [undo, h]

theorem redo_of_future_nil {s : HistoryState} (h : s.future = []) : redo s = s := by
  simp [redo, h]

theorem undo_concat (s : HistoryState) (l : List Floorplan) (a : Floorplan)
    (h : s.past = l ++ [a]) :
    undo s = { past := l, present := a, future := s.present :: s.future } := by
  simp [undo, h, List.getLast?_concat, List.dropLast_concat]

theorem redo_undo {s : HistoryState} (h : s.past ≠ []) : redo (undo s) = s := by
  obtain ⟨L, b, hlb⟩ := s.past.eq_nil_or_concat'.resolve_left h
  rw [undo_concat s L b hlb]
  simp [redo, ← hlb]

theorem redo_iterate_undo_iterate (n : ℕ) :
    ∀ s : HistoryState, n ≤ s.past.length → redo^[n] (undo^[n] s) = s := by
  induction n with
  | zero => intro s _; rfl
  | succ n ih =>
    intro s hn
    have hne : s.past ≠ [] := by
      intro h; rw [h] at hn; simp at hn
    obtain ⟨L, b, hlb⟩ := s.past.eq_nil_or_concat'.resolve_left hne
    have hu : undo s = { past := L, present := b, future := s.present :: s.future } :=
      undo_concat s L b hlb
    have hlen : n ≤ (undo s).past.length := by
      rw [hu]
      rw [hlb] at hn
      simp at hn ⊢
      omega
    rw [Function.iterate_succ_apply undo, Function.iterate_succ_apply' redo,
      ih (undo s) hlen, redo_undo hne]

theorem undo_iterate_past_eq_nil (n : ℕ) :
    ∀ s : HistoryState, s.past.length = n → (undo^[n] s).past = [] := by
  induction n with
  | zero =>
    intro s h
    simpa using List.eq_nil_of_length_eq_zero h
  | succ n ih =>
    intro s h
    have hne : s.past ≠ [] := by
      intro hnil; rw [hnil] at h; simp at h
    obtain ⟨L, b, hlb⟩ := s.past.eq_nil_or_concat'.resolve_left hne
    have hu : undo s = { past := L, present := b, future := s.present :: s.future } :=
      undo_concat s L b hlb
    rw [Function.iterate_succ_apply undo]
    apply ih
    rw [hu]
    rw [hlb] at h
    simp at h ⊢
    omega

theorem undo_iterate_stable {s : HistoryState} {n : ℕ} (h : s.past.length ≤ n) :
    undo^[n] s = undo^[s.past.length] s := by
  obtain ⟨k, hk⟩ := Nat.exists_eq_add_of_le h
  subst hk
  rw [Nat.add_comm, Function.iterate_add_apply]
  exact Function.iterate_fixed
    (undo_of_past_nil (undo_iterate_past_eq_nil s.past.length s rfl)) k

theorem redo_undo_cancel {s : HistoryState} (hf : s.future = []) (n : ℕ) :
    redo^[n] (undo^[n] s) = s := by
  rcases le_or_lt n s.past.length with h | h
  · exact redo_iterate_undo_iterate n s h
  · have hle : s.past.length ≤ n := le_of_lt h
    rw [undo_iterate_stable hle]
    obtain ⟨k, hk⟩ := Nat.exists_eq_add_of_le hle
    subst hk
    rw [Nat.add_comm, Function.iterate_add_apply,
      redo_iterate_undo_iterate s.past.length s le_rfl]
    exact Function.iterate_fixed (redo_of_future_nil hf) k

/-- Every store command other than `setName` appends exactly one entry to
the capped `past` and leaves `future` empty (which entry is appended depends
on whether the command mutates the present in place or replaces it). -/
theorem apply_shape_of_not_setName (c : Command) (s : HistoryState)
    (h : c.isSetName = false) :
    ∃ d, (c.apply s).past = sliceLast (s.past ++ [d]) MAX_HISTORY ∧
      (c.apply s).future = [] := by
  cases c <;> first
    | exact ⟨_, rfl, rfl⟩
    | simp [Command.isSetName] at h

theorem Command.apply_future_nil (c : Command) {s : HistoryState} (h : s.future = []) :
    (c.apply s).future = [] := by
  cases c <;> first
    | rfl
    | exact h

theorem applyCommands_future_nil (cs : List Command) :
    ∀ s : HistoryState, s.future = [] → (applyCommands cs s).future = [] := by
  induction cs with
  | nil => intro s h; exact h
  | cons c cs ih =>
    intro s h
    exact ih (c.apply s) (c.apply_future_nil h)

theorem sliceLast_length_le (l : List α) (n : Nat) : (sliceLast l n).length ≤ n := by
  simp [sliceLast]
  omega

/-- Total retained history: `past` plus `future` entries. -/
def histSize (s : HistoryState) : ℕ := s.past.length + s.future.length

theorem step_histSize {s t : HistoryState} (h : Step s t)
    (hs : histSize s ≤ MAX_HISTORY) : histSize t ≤ MAX_HISTORY := by
  cases h with
  | cmd c s =>
    rcases Bool.eq_false_or_eq_true c.isSetName with hb | hb
    · cases c <;> simp [Command.isSetName] at hb
      simpa [histSize, Command.apply, setName] using hs
    · obtain ⟨d, hp, hf⟩ := apply_shape_of_not_setName c s hb
      simp only [histSize, hp, hf, List.length_nil, Nat.add_zero]
      exact sliceLast_length_le _ _
  | undo s =>
    rcases s.past.eq_nil_or_concat' with hnil | ⟨L, b, hlb⟩
    · rwa [undo_of_past_nil hnil]
    · rw [undo_concat s L b hlb]
      simp only [histSize, hlb, List.length_append, List.length_cons,
        List.length_singleton] at hs ⊢
      omega
  | redo s =>
    match hfut : s.future with
    | [] => rwa [redo_of_future_nil hfut]
    | next :: rest =>
      simp only [redo, hfut, histSize, List.length_append, List.length_cons,
        List.length_nil] at hs ⊢
      omega

theorem reachable_histSize {fp : Floorplan} {s : HistoryState}
    (h : Reachable (initialState fp) s) : histSize s ≤ MAX_HISTORY := by
  induction h with
  | refl => simp [histSize, initialState, MAX_HISTORY]
  | step _ hstep ih => exact step_histSize hstep ih

/-! ## Lemmas about element lookup and removal -/

theorem patchFirst_of_not_found (p : α → Bool) (f : α → α) (l : List α)
    (h : ∀ x ∈ l, p x = false) : patchFirst p f l = l := by
  induction l with
  | nil => rfl
  | cons x xs ih =>
    rw [patchFirst, if_neg (by simp [h x (List.mem_cons_self x xs)])]
    rw [ih (fun y hy => h y (List.mem_cons_of_mem x hy))]

theorem filter_self_idem (p : α → Bool) (l : List α) :
    (l.filter p).filter p = l.filter p := by
  induction l with
  | nil => rfl
  | cons x xs ih =>
    by_cases h : p x <;> simp [List.filter_cons, h, ih]

/-! ## Concrete fixtures -/

/-- A concrete empty document (the store's initial present, with the impure
id fixed). -/
def fpA : Floorplan := createEmptyFloorplan "fp-0"

/-- A concrete store state with a nonempty `future`: draw one wall, then
undo it. -/
def stateWithFuture : HistoryState :=
  undo (addWall "w1" { x := 0, y := 0 } { x := 120, y := 0 } 6 (initialState fpA))

/-- A concrete store state whose `past` is at the `MAX_HISTORY` cap. -/
def full50State : HistoryState :=
  { past := List.replicate MAX_HISTORY fpA, present := fpA, future := [] }

/-- A concrete populated document: one wall carrying one door and one
window, one room, one furniture item. -/
def sampleState : HistoryState :=
  { past := []
    future := []
    present := { fpA with
      walls := [{ id := "w1", start := { x := 0, y := 0 },
                  «end» := { x := 120, y := 0 }, thickness := 6 }]
      doors := [{ id := "d1", wallId := "w1", position := 1/2, width := 32,
                  swingDirection := "left", swingInward := true }]
      windows := [{ id := "win1", wallId := "w1", position := 1/4, width := 36,
                    height := 48 }]
      rooms := [{ id := "r1", name := "Bedroom", type := "bedroom",
                  wallIds := ["w1"], color := none }]
      furniture := [{ id := "f1", type := "bed-queen",
                      position := { x := 10, y := 10 }, rotation := 0,
                      width := 60, height := 80, label := none }] } }

/-! ## Claim theorems -/

/-- C1: for any sequence of n mutating commands applied to an initial history
state, calling `undo()` n times and then `redo()` n times yields a present
document field-for-field equal to the document immediately after the n-th
command. -/
theorem undo_redo_inverse_law (fp : Floorplan) (cs : List Command) :
    (redo^[cs.length] (undo^[cs.length] (applyCommands cs (initialState fp)))).present
      = (applyCommands cs (initialState fp)).present := by
  rw [redo_undo_cancel (applyCommands_future_nil cs (initialState fp) rfl) cs.length]

/-- C2 counterexample, refuting "every command-layer operation that mutates
the document pushes exactly one snapshot of the pre-mutation present … and
leaves future empty" in two independent ways.  First, `setName` mutates the
present document yet pushes nothing onto `past` and leaves a nonempty
`future` in place.  Second, `addWall` (like every in-place mutator) does
push one entry — but that entry is the live immer draft that the mutation
itself then rewrites, so it finalizes to the POST-mutation document, not to
a snapshot of the pre-mutation present. -/
theorem setName_breaks_snapshot_discipline :
    ((setName "Renamed" stateWithFuture).present ≠ stateWithFuture.present ∧
     (setName "Renamed" stateWithFuture).past = stateWithFuture.past ∧
     (setName "Renamed" stateWithFuture).future ≠ []) ∧
    ((addWall "w1" { x := 0, y := 0 } { x := 120, y := 0 } 6 (initialState fpA)).past
       = [(addWall "w1" { x := 0, y := 0 } { x := 120, y := 0 }
            6 (initialState fpA)).present] ∧
     (addWall "w1" { x := 0, y := 0 } { x := 120, y := 0 } 6 (initialState fpA)).past
       ≠ [(initialState fpA).present]) := by
  refine ⟨⟨by decide, rfl, by decide⟩, by decide, by decide⟩

/-- C2 (amended): every mutating store command except `setName` appends
exactly one entry to the capped `past` and leaves `future` empty immediately
afterwards — but only the present-replacing commands `setFloorplan` and
`resetFloorplan` record the pre-mutation present; for every in-place mutator
the pushed immer draft finalizes to the post-mutation present, so no
pre-mutation snapshot is retained.  `setName` alone rewrites the present
name, leaving `past` and `future` untouched.  The queries
`canUndo`/`canRedo` are pure functions `HistoryState → Bool` and by type
cannot push a snapshot. -/
theorem mutating_command_snapshot_discipline (c : Command) (s : HistoryState)
    (name : String) :
    (c.isSetName = false →
       (c.apply s).future = [] ∧
       (c.apply s).past
         = sliceLast
             (s.past ++ [if c.isReplacing then s.present else (c.apply s).present])
             MAX_HISTORY) ∧
    (Command.setName name).apply s
      = { s with present := { s.present with name := name } } := by
  refine ⟨?_, rfl⟩
  intro h
  cases c <;> first
    | exact ⟨rfl, rfl⟩
    | simp [Command.isSetName] at h

theorem mutating_command_snapshot_discipline_witness :
    (((Command.removeWall "w1").apply (initialState fpA)).future = [] ∧
     ((Command.removeWall "w1").apply (initialState fpA)).past
       = sliceLast
           ((initialState fpA).past ++
             [if (Command.removeWall "w1").isReplacing then (initialState fpA).present
              else ((Command.removeWall "w1").apply (initialState fpA)).present])
           MAX_HISTORY) ∧
    (Command.setName "Renamed").apply (initialState fpA)
      = { initialState fpA with
          present := { (initialState fpA).present with name := "Renamed" } } :=
  ⟨(mutating_command_snapshot_discipline (Command.removeWall "w1")
      (initialState fpA) "Renamed").1 rfl,
   (mutating_command_snapshot_discipline (Command.removeWall "w1")
      (initialState fpA) "Renamed").2⟩

/-- C3 (code bug, evaluated at the failing input): the spec's cascade
atomicity — `removeWall` then a single `undo()` restores the wall, the door
and the window together — fails at runtime.  Starting from `sampleState`
(wall `w1` carrying door `d1` and window `win1`), `removeWall "w1"` does
cascade-remove the wall, its door and its window in one step; but the entry
pushed to `past` is the live immer draft of `present`, the removal mutates
that same draft, and both finalize to the post-removal document — so after
one `undo()` the walls, doors and windows are all still gone, even though
the pre-removal document had them. -/
theorem removeWall_undo_does_not_restore :
    sampleState.present.walls ≠ [] ∧
    sampleState.present.doors ≠ [] ∧
    sampleState.present.windows ≠ [] ∧
    (removeWall "w1" sampleState).present.walls = [] ∧
    (removeWall "w1" sampleState).present.doors = [] ∧
    (removeWall "w1" sampleState).present.windows = [] ∧
    (undo (removeWall "w1" sampleState)).present.walls = [] ∧
    (undo (removeWall "w1" sampleState)).present.doors = [] ∧
    (undo (removeWall "w1" sampleState)).present.windows = [] := by
  decide

/-- C4: in every state reachable from the initial history by mutating
commands, undo and redo, `past.length` never exceeds `MAX_HISTORY` (50) and
undoing more than 50 steps is impossible (further undos change nothing);
pushing a snapshot when `past` is full evicts the oldest entry. -/
theorem history_cap_invariant (fp : Floorplan) (s : HistoryState) (k : ℕ) :
    (Reachable (initialState fp) s →
       s.past.length ≤ MAX_HISTORY ∧
       undo^[MAX_HISTORY + k] s = undo^[MAX_HISTORY] s) ∧
    (s.past.length = MAX_HISTORY →
       (pushToHistory s).past = s.past.tail ++ [s.present]) := by
  constructor
  · intro hr
    have hsz := reachable_histSize hr
    have hlen : s.past.length ≤ MAX_HISTORY := by
      unfold histSize at hsz; omega
    exact ⟨hlen, by
      rw [undo_iterate_stable hlen,
        undo_iterate_stable (le_trans hlen (Nat.le_add_right _ _))]⟩
  · intro hfull
    unfold pushToHistory sliceLast
    have h1 : (s.past ++ [s.present]).length - MAX_HISTORY = 1 := by
      simp [hfull]
    rw [h1, List.drop_append_of_le_length (by rw [hfull]; simp [MAX_HISTORY]),
      List.drop_one]

theorem history_cap_invariant_witness :
    ((initialState fpA).past.length ≤ MAX_HISTORY ∧
       undo^[MAX_HISTORY + 3] (initialState fpA) = undo^[MAX_HISTORY] (initialState fpA)) ∧
    (pushToHistory full50State).past = full50State.past.tail ++ [full50State.present] :=
  ⟨(history_cap_invariant fpA (initialState fpA) 3).1 Reachable.refl,
   (history_cap_invariant fpA full50State 3).2 (by simp [full50State])⟩

/-- C5 counterexample: `addDoor` stores the input position verbatim.  With
input position `2` the stored door's position is `2`, which lies outside
`[0,1]` — the claimed clamping does not happen. -/
theorem addDoor_position_not_clamped :
    (addDoor "d1" "w1" 2 32 (initialState fpA)).present.doors.map Door.position = [2] ∧
    ¬ ((2 : ℚ) ≤ 1) :=
  ⟨rfl, by norm_num⟩

/-- C5 (amended): for every input position (including values below 0 or
above 1), `addDoor` and `addWindow` append the door/window with its position
stored exactly as passed — the command layer performs no clamping into
`[0,1]`. -/
theorem addDoor_addWindow_position_stored_verbatim (s : HistoryState)
    (id wallId : String) (position width height : ℚ) :
    (addDoor id wallId position width s).present.doors
      = s.present.doors ++
        [{ id := id, wallId := wallId, position := position, width := width,
           swingDirection := "left", swingInward := true }] ∧
    (addWindow id wallId position width height s).present.windows
      = s.present.windows ++
        [{ id := id, wallId := wallId, position := position, width := width,
           height := height }] :=
  ⟨rfl, rfl⟩

theorem updateWall_present_of_absent (s : HistoryState) (id : String) (u : WallUpdates)
    (habs : ∀ w ∈ s.present.walls, w.id ≠ id) :
    (updateWall id u s).present = s.present := by
  have h : patchFirst (fun w => w.id == id) (fun w => applyWallUpdates w u)
      s.present.walls = s.present.walls :=
    patchFirst_of_not_found _ _ _ (fun x hx => by simp [habs x hx])
  show ({ s.present with walls := (patchFirst (fun w => w.id == id)
      (fun w => applyWallUpdates w u) s.present.walls) } : Floorplan) = s.present
  rw [h]

theorem updateDoor_present_of_absent (s : HistoryState) (id : String) (u : DoorUpdates)
    (habs : ∀ d ∈ s.present.doors, d.id ≠ id) :
    (updateDoor id u s).present = s.present := by
  have h : patchFirst (fun d => d.id == id) (fun d => applyDoorUpdates d u)
      s.present.doors = s.present.doors :=
    patchFirst_of_not_found _ _ _ (fun x hx => by simp [habs x hx])
  show ({ s.present with doors := (patchFirst (fun d => d.id == id)
      (fun d => applyDoorUpdates d u) s.present.doors) } : Floorplan) = s.present
  rw [h]

theorem updateWindow_present_of_absent (s : HistoryState) (id : String)
    (u : WindowUpdates) (habs : ∀ w ∈ s.present.windows, w.id ≠ id) :
    (updateWindow id u s).present = s.present := by
  have h : patchFirst (fun w => w.id == id) (fun w => applyWindowUpdates w u)
      s.present.windows = s.present.windows :=
    patchFirst_of_not_found _ _ _ (fun x hx => by simp [habs x hx])
  show ({ s.present with windows := (patchFirst (fun w => w.id == id)
      (fun w => applyWindowUpdates w u) s.present.windows) } : Floorplan) = s.present
  rw [h]

theorem updateRoom_present_of_absent (s : HistoryState) (id : String) (u : RoomUpdates)
    (habs : ∀ r ∈ s.present.rooms, r.id ≠ id) :
    (updateRoom id u s).present = s.present := by
  have h : patchFirst (fun r => r.id == id) (fun r => applyRoomUpdates r u)
      s.present.rooms = s.present.rooms :=
    patchFirst_of_not_found _ _ _ (fun x hx => by simp [habs x hx])
  show ({ s.present with rooms := (patchFirst (fun r => r.id == id)
      (fun r => applyRoomUpdates r u) s.present.rooms) } : Floorplan) = s.present
  rw [h]

theorem updateFurniture_present_of_absent (s : HistoryState) (id : String)
    (u : FurnitureUpdates) (habs : ∀ f ∈ s.present.furniture, f.id ≠ id) :
    (updateFurniture id u s).present = s.present := by
  have h : patchFirst (fun f => f.id == id) (fun f => applyFurnitureUpdates f u)
      s.present.furniture = s.present.furniture :=
    patchFirst_of_not_found _ _ _ (fun x hx => by simp [habs x hx])
  show ({ s.present with furniture := (patchFirst (fun f => f.id == id)
      (fun f => applyFurnitureUpdates f u) s.present.furniture) } : Floorplan) = s.present
  rw [h]

theorem removeWall_present_idem (s : HistoryState) (id : String) :
    (removeWall id (removeWall id s)).present = (removeWall id s).present := by
  have hw : ((removeWall id s).present.walls).filter (fun w => w.id != id)
      = (removeWall id s).present.walls := filter_self_idem _ s.present.walls
  have hd : ((removeWall id s).present.doors).filter (fun d => d.wallId != id)
      = (removeWall id s).present.doors := filter_self_idem _ s.present.doors
  have hwin : ((removeWall id s).present.windows).filter (fun w => w.wallId != id)
      = (removeWall id s).present.windows := filter_self_idem _ s.present.windows
  show ({ (removeWall id s).present with
      walls := ((removeWall id s).present.walls).filter (fun w => w.id != id)
      doors := ((removeWall id s).present.doors).filter (fun d => d.wallId != id)
      windows := ((removeWall id s).present.windows).filter (fun w => w.wallId != id) }
        : Floorplan) = (removeWall id s).present
  rw [hw, hd, hwin]

theorem removeDoor_present_idem (s : HistoryState) (id : String) :
    (removeDoor id (removeDoor id s)).present = (removeDoor id s).present := by
  have h : ((removeDoor id s).present.doors).filter (fun d => d.id != id)
      = (removeDoor id s).present.doors := filter_self_idem _ s.present.doors
  show ({ (removeDoor id s).present with
      doors := ((removeDoor id s).present.doors).filter (fun d => d.id != id) }
        : Floorplan) = (removeDoor id s).present
  rw [h]

theorem removeWindow_present_idem (s : HistoryState) (id : String) :
    (removeWindow id (removeWindow id s)).present = (removeWindow id s).present := by
  have h : ((removeWindow id s).present.windows).filter (fun w => w.id != id)
      = (removeWindow id s).present.windows := filter_self_idem _ s.present.windows
  show ({ (removeWindow id s).present with
      windows := ((removeWindow id s).present.windows).filter (fun w => w.id != id) }
        : Floorplan) = (removeWindow id s).present
  rw [h]

theorem removeRoom_present_idem (s : HistoryState) (id : String) :
    (removeRoom id (removeRoom id s)).present = (removeRoom id s).present := by
  have h : ((removeRoom id s).present.rooms).filter (fun r => r.id != id)
      = (removeRoom id s).present.rooms := filter_self_idem _ s.present.rooms
  show ({ (removeRoom id s).present with
      rooms := ((removeRoom id s).present.rooms).filter (fun r => r.id != id) }
        : Floorplan) = (removeRoom id s).present
  rw [h]

theorem removeFurniture_present_idem (s : HistoryState) (id : String) :
    (removeFurniture id (removeFurniture id s)).present
      = (removeFurniture id s).present := by
  have h : ((removeFurniture id s).present.furniture).filter (fun f => f.id != id)
      = (removeFurniture id s).present.furniture := filter_self_idem _ s.present.furniture
  show ({ (removeFurniture id s).present with
      furniture := ((removeFurniture id s).present.furniture).filter (fun f => f.id != id) }
        : Floorplan) = (removeFurniture id s).present
  rw [h]

/-- C6: for every id not present in the document, every `update*` operation
leaves the present document unchanged (silent no-op, no error path exists);
and every `remove*` operation is idempotent on the present document: removing
the same id twice (any id) yields the same present as removing it once. -/
theorem absent_update_noop_and_remove_idempotent (s : HistoryState) (id id2 : String)
    (uw : WallUpdates) (ud : DoorUpdates) (uwin : WindowUpdates) (ur : RoomUpdates)
    (uf : FurnitureUpdates)
    (hw : ∀ w ∈ s.present.walls, w.id ≠ id)
    (hd : ∀ d ∈ s.present.doors, d.id ≠ id)
    (hwin : ∀ w ∈ s.present.windows, w.id ≠ id)
    (hr : ∀ r ∈ s.present.rooms, r.id ≠ id)
    (hf : ∀ f ∈ s.present.furniture, f.id ≠ id) :
    ((updateWall id uw s).present = s.present ∧
     (updateDoor id ud s).present = s.present ∧
     (updateWindow id uwin s).present = s.present ∧
     (updateRoom id ur s).present = s.present ∧
     (updateFurniture id uf s).present = s.present) ∧
    ((removeWall id2 (removeWall id2 s)).present = (removeWall id2 s).present ∧
     (removeDoor id2 (removeDoor id2 s)).present = (removeDoor id2 s).present ∧
     (removeWindow id2 (removeWindow id2 s)).present = (removeWindow id2 s).present ∧
     (removeRoom id2 (removeRoom id2 s)).present = (removeRoom id2 s).present ∧
     (removeFurniture id2 (removeFurniture id2 s)).present
       = (removeFurniture id2 s).present) :=
  ⟨⟨updateWall_present_of_absent s id uw hw,
    updateDoor_present_of_absent s id ud hd,
    updateWindow_present_of_absent s id uwin hwin,
    updateRoom_present_of_absent s id ur hr,
    updateFurniture_present_of_absent s id uf hf⟩,
   ⟨removeWall_present_idem s id2, removeDoor_present_idem s id2,
    removeWindow_present_idem s id2, removeRoom_present_idem s id2,
    removeFurniture_present_idem s id2⟩⟩

def noWallU : WallUpdates := { start := none, «end» := none, thickness := none }

def noDoorU : DoorUpdates :=
  { wallId := none, position := none, width := none, swingDirection := none,
    swingInward := none }

def noWindowU : WindowUpdates :=
  { wallId := none, position := none, width := none, height := none }

def noRoomU : RoomUpdates :=
  { name := none, type := none, wallIds := none, color := none }

def noFurnitureU : FurnitureUpdates :=
  { type := none, position := none, rotation := none, width := none,
    height := none, label := none }

theorem absent_update_noop_and_remove_idempotent_witness :
    (((updateWall "ghost" noWallU sampleState).present = sampleState.present ∧
      (updateDoor "ghost" noDoorU sampleState).present = sampleState.present ∧
      (updateWindow "ghost" noWindowU sampleState).present = sampleState.present ∧
      (updateRoom "ghost" noRoomU sampleState).present = sampleState.present ∧
      (updateFurniture "ghost" noFurnitureU sampleState).present = sampleState.present) ∧
     ((removeWall "w1" (removeWall "w1" sampleState)).present
        = (removeWall "w1" sampleState).present ∧
      (removeDoor "w1" (removeDoor "w1" sampleState)).present
        = (removeDoor "w1" sampleState).present ∧
      (removeWindow "w1" (removeWindow "w1" sampleState)).present
        = (removeWindow "w1" sampleState).present ∧
      (removeRoom "w1" (removeRoom "w1" sampleState)).present
        = (removeRoom "w1" sampleState).present ∧
      (removeFurniture "w1" (removeFurniture "w1" sampleState)).present
        = (removeFurniture "w1" sampleState).present)) :=
  absent_update_noop_and_remove_idempotent sampleState "ghost" "w1"
    noWallU noDoorU noWindowU noRoomU noFurnitureU
    (by decide) (by decide) (by decide) (by decide) (by decide)

/-- C7 counterexample: with snapped start `(0,0)` and release point `(10,0)`
the straight-line distance is exactly 10, which is NOT below the threshold,
yet the code (`length > 10`) discards the gesture and never calls `addWall` —
refuting "below the threshold discarded, otherwise addWall invoked". -/
theorem handleMouseUp_threshold_boundary :
    ¬ ((((10 : ℚ) - 0) * ((10 : ℚ) - 0) + ((0 : ℚ) - 0) * ((0 : ℚ) - 0)) < 10 * 10) ∧
    handleMouseUpWall { x := 0, y := 0 } { x := 10, y := 0 } = none := by
  constructor
  · norm_num
  · simp only [handleMouseUpWall]
    rw [if_neg]
    norm_num

/-- C7 (amended): on release of a wall-drawing gesture, if the straight-line
distance between the snapped start and current point is at most the 10-unit
pixel-space threshold (strict `> 10` in the code) the gesture is discarded
with no command-layer call; if strictly above it, `addWall` is invoked
exactly once with both endpoints converted from pixel space to inch space by
dividing by `DEFAULTS.scale`.  (Distances are compared squared to stay in
`ℚ`.) -/
theorem handleMouseUp_wall_gesture (start snapped : Point) :
    ((snapped.x - start.x) * (snapped.x - start.x) +
       (snapped.y - start.y) * (snapped.y - start.y) ≤ 10 * 10 →
       handleMouseUpWall start snapped = none) ∧
    (10 * 10 < (snapped.x - start.x) * (snapped.x - start.x) +
       (snapped.y - start.y) * (snapped.y - start.y) →
       handleMouseUpWall start snapped =
         some ({ x := start.x / DEFAULTS.scale, y := start.y / DEFAULTS.scale },
               { x := snapped.x / DEFAULTS.scale, y := snapped.y / DEFAULTS.scale })) := by
  constructor
  · intro h
    simp only [handleMouseUpWall]
    rw [if_neg (not_lt.mpr h)]
  · intro h
    simp only [handleMouseUpWall]
    rw [if_pos h]

theorem handleMouseUp_wall_gesture_witness :
    handleMouseUpWall { x := 0, y := 0 } { x := 6, y := 8 } = none ∧
    handleMouseUpWall { x := 0, y := 0 } { x := 60, y := 0 }
      = some ({ x := 0, y := 0 }, { x := 6, y := 0 }) := by
  constructor
  · exact (handleMouseUp_wall_gesture { x := 0, y := 0 } { x := 6, y := 8 }).1
      (by norm_num)
  · rw [(handleMouseUp_wall_gesture { x := 0, y := 0 } { x := 60, y := 0 }).2
      (by norm_num)]
    norm_num [DEFAULTS.scale, Point.mk.injEq, Prod.mk.injEq]

theorem snapToGridPoint_aligned (k m : ℤ) :
    snapToGridPoint true (k * (DEFAULTS.snapIncrement * DEFAULTS.scale))
        (m * (DEFAULTS.snapIncrement * DEFAULTS.scale))
      = { x := k * (DEFAULTS.snapIncrement * DEFAULTS.scale),
          y := m * (DEFAULTS.snapIncrement * DEFAULTS.scale) } := by
  have h60 : (DEFAULTS.snapIncrement * DEFAULTS.scale : ℚ) ≠ 0 := by
    norm_num [DEFAULTS.snapIncrement, DEFAULTS.scale]
  simp only [snapToGridPoint, Bool.not_true, Bool.false_eq_true, if_false]
  rw [mul_div_cancel_right₀ _ h60, mul_div_cancel_right₀ _ h60,
    round_intCast, round_intCast]

theorem round_mul_nearest (x s : ℚ) (hs : 0 < s) (n : ℤ) :
    |x - (round (x / s) : ℤ) * s| ≤ |x - (n : ℚ) * s| := by
  have hx : x / s * s = x := div_mul_cancel₀ x (ne_of_gt hs)
  calc |x - (round (x / s) : ℤ) * s|
      = |(x / s - (round (x / s) : ℤ)) * s| := by rw [sub_mul, hx]
    _ = |x / s - (round (x / s) : ℤ)| * |s| := abs_mul _ _
    _ ≤ |x / s - (n : ℚ)| * |s| :=
        mul_le_mul_of_nonneg_right (round_le (x / s) n) (abs_nonneg s)
    _ = |(x / s - (n : ℚ)) * s| := (abs_mul _ _).symm
    _ = |x - (n : ℚ) * s| := by rw [sub_mul, hx]

/-- C8: with snapping disabled the point is returned unchanged; with snapping
enabled each coordinate is rounded independently per axis (the x output does
not depend on y) to the nearest multiple of the snap increment
(`DEFAULTS.snapIncrement * DEFAULTS.scale` = 6 inches scaled into pixel
space = 60); snapping is idempotent, and snapping an already-grid-aligned
coordinate returns the same coordinate. -/
theorem snapToGridPoint_spec (x y y2 : ℚ) (k m n : ℤ) :
    snapToGridPoint false x y = { x := x, y := y } ∧
    (snapToGridPoint true x y).x = (snapToGridPoint true x y2).x ∧
    snapToGridPoint true (k * (DEFAULTS.snapIncrement * DEFAULTS.scale))
        (m * (DEFAULTS.snapIncrement * DEFAULTS.scale))
      = { x := k * (DEFAULTS.snapIncrement * DEFAULTS.scale),
          y := m * (DEFAULTS.snapIncrement * DEFAULTS.scale) } ∧
    snapToGridPoint true (snapToGridPoint true x y).x (snapToGridPoint true x y).y
      = snapToGridPoint true x y ∧
    |x - (snapToGridPoint true x y).x|
      ≤ |x - (n : ℚ) * (DEFAULTS.snapIncrement * DEFAULTS.scale)| ∧
    |y - (snapToGridPoint true x y).y|
      ≤ |y - (n : ℚ) * (DEFAULTS.snapIncrement * DEFAULTS.scale)| := by
  have hs : (0 : ℚ) < DEFAULTS.snapIncrement * DEFAULTS.scale := by
    norm_num [DEFAULTS.snapIncrement, DEFAULTS.scale]
  refine ⟨rfl, rfl, snapToGridPoint_aligned k m, ?_, ?_, ?_⟩
  · exact snapToGridPoint_aligned
      (round (x / (DEFAULTS.snapIncrement * DEFAULTS.scale)))
      (round (y / (DEFAULTS.snapIncrement * DEFAULTS.scale)))
  · exact round_mul_nearest x _ hs n
  · exact round_mul_nearest y _ hs n

/-- C9: an agent `clearAll` invocation executes the document reset if and
only if its `confirm` argument is strictly `true`; for an absent or falsy
`confirm` the state is unchanged and the invocation is reported as
unexecuted (success flag `false`).  The embedding is a total function: no
error/exception path exists. -/
theorem clearAll_confirm_gate (confirm : Option Bool) (newId : String)
    (s : HistoryState) :
    (confirm = some true →
       executeClearAll confirm newId s = (true, resetFloorplan newId s)) ∧
    (confirm ≠ some true →
       executeClearAll confirm newId s = (false, s)) := by
  constructor
  · intro h
    subst h
    rfl
  · intro h
    rcases confirm with _ | b
    · rfl
    · cases b
      · rfl
      · exact absurd rfl h

theorem clearAll_confirm_gate_witness :
    executeClearAll (some true) "new-1" (initialState fpA)
      = (true, resetFloorplan "new-1" (initialState fpA)) ∧
    executeClearAll (some false) "new-1" (initialState fpA)
      = (false, initialState fpA) :=
  ⟨(clearAll_confirm_gate (some true) "new-1" (initialState fpA)).1 rfl,
   (clearAll_confirm_gate (some false) "new-1" (initialState fpA)).2 (by decide)⟩

/-- C10 (implicit): the agent bridge's `executeToolCall` reports success
(`true`) for `moveFurniture`, `rotateFurniture` and `removeWall` invocations
whose target id does not exist in the document — the underlying command is a
present-preserving no-op, yet the per-invocation success flag is `true`. -/
theorem dangling_id_reports_success (s : HistoryState) (fid wid : String)
    (x y rot : ℚ)
    (hfurn : ∀ f ∈ s.present.furniture, f.id ≠ fid)
    (hwall : ∀ w ∈ s.present.walls, w.id ≠ wid)
    (hdoor : ∀ d ∈ s.present.doors, d.wallId ≠ wid)
    (hwin : ∀ w ∈ s.present.windows, w.wallId ≠ wid) :
    ((executeMoveFurniture fid x y s).1 = true ∧
       (executeMoveFurniture fid x y s).2.present = s.present) ∧
    ((executeRotateFurniture fid rot s).1 = true ∧
       (executeRotateFurniture fid rot s).2.present = s.present) ∧
    ((executeRemoveWall wid s).1 = true ∧
       (executeRemoveWall wid s).2.present = s.present) := by
  refine ⟨⟨rfl, ?_⟩, ⟨rfl, ?_⟩, ⟨rfl, ?_⟩⟩
  · exact updateFurniture_present_of_absent s fid _ hfurn
  · exact updateFurniture_present_of_absent s fid _ hfurn
  · have hw : s.present.walls.filter (fun w => w.id != wid) = s.present.walls :=
      List.filter_eq_self.mpr (fun w hwm => by simp [hwall w hwm])
    have hd : s.present.doors.filter (fun d => d.wallId != wid) = s.present.doors :=
      List.filter_eq_self.mpr (fun d hdm => by simp [hdoor d hdm])
    have hwn : s.present.windows.filter (fun w => w.wallId != wid) = s.present.windows :=
      List.filter_eq_self.mpr (fun w hwm => by simp [hwin w hwm])
    show ({ s.present with
        walls := s.present.walls.filter (fun w => w.id != wid)
        doors := s.present.doors.filter (fun d => d.wallId != wid)
        windows := s.present.windows.filter (fun w => w.wallId != wid) } : Floorplan)
      = s.present
    rw [hw, hd, hwn]

theorem dangling_id_reports_success_witness :
    ((executeMoveFurniture "ghost" 5 5 sampleState).1 = true ∧
       (executeMoveFurniture "ghost" 5 5 sampleState).2.present
         = sampleState.present) ∧
    ((executeRotateFurniture "ghost" 90 sampleState).1 = true ∧
       (executeRotateFurniture "ghost" 90 sampleState).2.present
         = sampleState.present) ∧
    ((executeRemoveWall "ghost" sampleState).1 = true ∧
       (executeRemoveWall "ghost" sampleState).2.present = sampleState.present) :=
  dangling_id_reports_success sampleState "ghost" "ghost" 5 5 90
    (by decide) (by decide) (by decide) (by decide)

end FloorplanEditor
